import Mathlib

/-!
Shallow embedding of `src/bank_account.py` of the Bank Account Simulator.

Monetary values (Python floats used as decimal amounts) are modelled as
rationals `ℚ`.  A Python `raise ValueError(msg)` is modelled as an
`Except.error` carrying the error category the spec names
(`InvalidArgument` / `OverdraftExceeded`) together with the message string.
The `timestamp` field of a transaction record (`datetime.now()`) is a
real-time value and is omitted from the model; no claim mentions it.
-/

deriving instance DecidableEq for Except

namespace BankSim

/-- A transaction record, as built by `BankAccount._record_transaction`
(the `timestamp` field is omitted, see the file comment). -/
structure Transaction where
  type : String
  amount : ℚ
  resulting_balance : ℚ
deriving DecidableEq

/-- The two error categories of the core: both are `ValueError` in Python,
distinguished by their message / raise site. -/
inductive BankError where
  | invalidArgument : String → BankError
  | overdraftExceeded : String → BankError
deriving DecidableEq

/-- The message of the overdraft `ValueError`
(an f-string embedding the limit in Python). -/
def overdraftMessage (limit : ℚ) : String :=
  "Withdrawal would exceed overdraft limit of " ++ toString limit

/-- The mutable state of a `BankAccount` object:
`_balance`, `_transaction_history`, `_overdraft_limit`. -/
structure BankAccount where
  balance : ℚ
  transaction_history : List Transaction
  overdraft_limit : ℚ
deriving DecidableEq

/-- `BankAccount._record_transaction(transaction_type, amount)`:
appends a record whose `resulting_balance` is the balance at call time. -/
def BankAccount.record_transaction (a : BankAccount) (transaction_type : String)
    (amount : ℚ) : BankAccount :=
  { a with transaction_history :=
      a.transaction_history ++
        [{ type := transaction_type, amount := amount,
           resulting_balance := a.balance }] }

/-- `BankAccount.__init__(initial_balance, overdraft_limit)`. -/
def BankAccount.create (initial_balance : ℚ) (overdraft_limit : ℚ) :
    Except BankError BankAccount :=
  if initial_balance < 0 then
    .error (.invalidArgument "Initial balance cannot be negative")
  else
    let a : BankAccount :=
      { balance := initial_balance, transaction_history := [],
        overdraft_limit := max 0 overdraft_limit }
    if initial_balance > 0 then
      .ok (a.record_transaction "initial deposit" initial_balance)
    else
      .ok a

/-- `BankAccount.deposit(amount)`: returns the updated object and the
returned new balance. -/
def BankAccount.deposit (a : BankAccount) (amount : ℚ) :
    Except BankError (BankAccount × ℚ) :=
  if amount ≤ 0 then
    .error (.invalidArgument "Deposit amount must be positive")
  else
    let a1 := { a with balance := a.balance + amount }
    let a2 := a1.record_transaction "deposit" amount
    .ok (a2, a2.balance)

/-- `BankAccount.withdraw(amount)`: returns the updated object and the
returned new balance. -/
def BankAccount.withdraw (a : BankAccount) (amount : ℚ) :
    Except BankError (BankAccount × ℚ) :=
  if amount ≤ 0 then
    .error (.invalidArgument "Withdrawal amount must be positive")
  else if a.balance - amount < -a.overdraft_limit then
    .error (.overdraftExceeded (overdraftMessage a.overdraft_limit))
  else
    let a1 := { a with balance := a.balance - amount }
    let a2 := a1.record_transaction "withdrawal" amount
    .ok (a2, a2.balance)

/-- `BankAccount.get_balance()`. -/
def BankAccount.get_balance (a : BankAccount) : ℚ :=
  a.balance

/-- `BankAccount.transaction_count()`. -/
def BankAccount.transaction_count (a : BankAccount) : ℕ :=
  a.transaction_history.length

/-- Pure `deposit(balance, amount)`. -/
def deposit (balance : ℚ) (amount : ℚ) : Except BankError ℚ :=
  if amount ≤ 0 then
    .error (.invalidArgument "Deposit amount must be positive")
  else
    .ok (balance + amount)

/-- Pure `withdraw(balance, amount, overdraft_limit=0)`. -/
def withdraw (balance : ℚ) (amount : ℚ) (overdraft_limit : ℚ := 0) :
    Except BankError ℚ :=
  if amount ≤ 0 then
    .error (.invalidArgument "Withdrawal amount must be positive")
  else
    let new_balance := balance - amount
    if new_balance < -overdraft_limit then
      .error (.overdraftExceeded (overdraftMessage overdraft_limit))
    else
      .ok new_balance

/-- Pure `get_balance(balance)`. -/
def get_balance (balance : ℚ) : ℚ :=
  balance

/-! ### Operation sequences

The interaction shell invokes deposits and withdrawals in either mode and
catches a raised `ValueError`, leaving the account object as it was.  `Op`
is one requested operation; a step returns the resulting state and whether
the call succeeded. -/

/-- One requested operation of the shell. -/
inductive Op where
  | deposit : ℚ → Op
  | withdraw : ℚ → Op

/-- One shell step against the stateful account: a raised error is caught
and leaves the object unchanged. -/
def statefulStep (a : BankAccount) : Op → BankAccount × Bool
  | .deposit amount =>
      match a.deposit amount with
      | .ok (a1, _) => (a1, true)
      | .error _ => (a, false)
  | .withdraw amount =>
      match a.withdraw amount with
      | .ok (a1, _) => (a1, true)
      | .error _ => (a, false)

/-- A sequence of shell steps against the stateful account. -/
def statefulRun (a : BankAccount) : List Op → BankAccount × List Bool
  | [] => (a, [])
  | op :: ops =>
      let s := statefulStep a op
      let r := statefulRun s.1 ops
      (r.1, s.2 :: r.2)

/-- One shell step in stateless mode: the shell carries `overdraft_limit`
alongside the balance across calls. -/
def statelessStep (overdraft_limit balance : ℚ) : Op → ℚ × Bool
  | .deposit amount =>
      match deposit balance amount with
      | .ok b1 => (b1, true)
      | .error _ => (balance, false)
  | .withdraw amount =>
      match withdraw balance amount overdraft_limit with
      | .ok b1 => (b1, true)
      | .error _ => (balance, false)

/-- A sequence of shell steps in stateless mode. -/
def statelessRun (overdraft_limit balance : ℚ) : List Op → ℚ × List Bool
  | [] => (balance, [])
  | op :: ops =>
      let s := statelessStep overdraft_limit balance op
      let r := statelessRun overdraft_limit s.1 ops
      (r.1, s.2 :: r.2)

/-- States reachable from a successful construction by any sequence of
deposit/withdraw calls (successful or failed); `ib` is the initial balance
and `n` counts the successful calls. -/
inductive Reachable : ℚ → ℕ → BankAccount → Prop where
  | create (ib od : ℚ) (a : BankAccount) :
      BankAccount.create ib od = .ok a → Reachable ib 0 a
  | step (ib : ℚ) (n : ℕ) (a : BankAccount) (op : Op) :
      Reachable ib n a →
      Reachable ib (n + if (statefulStep a op).2 then 1 else 0) (statefulStep a op).1

/-! ### Heap model for `list.copy()`

`get_transaction_history` returns `self._transaction_history.copy()`.  To
express object identity (the claim is that caller mutation of the returned
list does not reach the internal one) the history lists live on an explicit
heap of Python list objects, addressed by references. -/

/-- A heap of Python list objects. -/
abbrev Heap := List (List Transaction)

/-- Dereference a list object. -/
def Heap.read (h : Heap) (r : ℕ) : List Transaction :=
  h.getD r []

/-- `list.copy()`: allocate a fresh list object with the same contents,
returning the new heap and the fresh reference. -/
def Heap.copyAlloc (h : Heap) (r : ℕ) : Heap × ℕ :=
  (h ++ [h.read r], h.length)

/-- In-place mutation of the list object at `r` (what a caller does to the
value returned by `get_transaction_history`). -/
def Heap.write (h : Heap) (r : ℕ) (l : List Transaction) : Heap :=
  h.set r l

/-- A `BankAccount` object whose `_transaction_history` is a reference to a
list object on the heap. -/
structure AccountObj where
  balance : ℚ
  overdraft_limit : ℚ
  history_ref : ℕ
deriving DecidableEq

/-- `get_balance()` on the object model: reads `_balance`, no state change. -/
def AccountObj.get_balance (a : AccountObj) : ℚ :=
  a.balance

/-- `get_transaction_history()` on the heap model: returns the heap after
the copy allocation, the untouched account object, the reference of the
returned list object, and its contents. -/
def AccountObj.get_transaction_history (a : AccountObj) (h : Heap) :
    Heap × AccountObj × ℕ × List Transaction :=
  let c := h.copyAlloc a.history_ref
  (c.1, a, c.2, c.1.read c.2)

example : deposit 100 50 = .ok 150 := by norm_num [deposit]
example : withdraw 100 350 200 = .error (.overdraftExceeded (overdraftMessage 200)) := by
  norm_num [withdraw]

/-- What a successful construction yields: a non-negative initial balance,
the balance stored as given, the limit clamped, and the initial history. -/
theorem create_ok_props {ib od : ℚ} {a : BankAccount}
    (hc : BankAccount.create ib od = .ok a) :
    0 ≤ ib ∧ a.balance = ib ∧ a.overdraft_limit = max 0 od ∧
    a.transaction_history =
      (if 0 < ib then [⟨"initial deposit", ib, ib⟩] else []) := by
  unfold BankAccount.create at hc
  by_cases h : ib < 0
  · simp [h] at hc
  · by_cases h2 : ib > 0
    · simp [h, h2, BankAccount.record_transaction] at hc
      subst hc
      exact ⟨not_lt.mp h, rfl, rfl, by simp [h2]⟩
    · simp [h, h2] at hc
      subst hc
      exact ⟨not_lt.mp h, rfl, rfl, by simp [h2]⟩

/-- One shell step preserves the overdraft limit; a failed step leaves the
object unchanged; a successful step appends exactly one history entry whose
`resulting_balance` is the new balance, and keeps the balance at or above
`-overdraft_limit` if it was there before. -/
theorem statefulStep_spec (a : BankAccount) (op : Op) :
    (statefulStep a op).1.overdraft_limit = a.overdraft_limit ∧
    ((statefulStep a op).2 = false → (statefulStep a op).1 = a) ∧
    ((statefulStep a op).2 = true →
      (∃ ttype amount,
        (statefulStep a op).1.transaction_history =
          a.transaction_history ++
            [⟨ttype, amount, (statefulStep a op).1.balance⟩]) ∧
      (-a.overdraft_limit ≤ a.balance →
        -a.overdraft_limit ≤ (statefulStep a op).1.balance)) := by
  cases op with
  | deposit amount =>
      by_cases hle : amount ≤ 0
      · simp [statefulStep, BankAccount.deposit, hle]
      · push_neg at hle
        refine ⟨?_, ?_, fun _ => ⟨⟨"deposit", amount, ?_⟩, fun hbal => ?_⟩⟩
        · simp [statefulStep, BankAccount.deposit, hle.not_le,
            BankAccount.record_transaction]
        · simp [statefulStep, BankAccount.deposit, hle.not_le]
        · simp [statefulStep, BankAccount.deposit, hle.not_le,
            BankAccount.record_transaction]
        · have hb : (statefulStep a (Op.deposit amount)).1.balance =
              a.balance + amount := by
            simp [statefulStep, BankAccount.deposit, hle.not_le,
              BankAccount.record_transaction]
          rw [hb]
          linarith
  | withdraw amount =>
      by_cases hle : amount ≤ 0
      · simp [statefulStep, BankAccount.withdraw, hle]
      · by_cases hover : a.balance - amount < -a.overdraft_limit
        · simp [statefulStep, BankAccount.withdraw, hle, hover]
        · push_neg at hle
          refine ⟨?_, ?_, fun _ => ⟨⟨"withdrawal", amount, ?_⟩, fun _ => ?_⟩⟩
          · simp [statefulStep, BankAccount.withdraw, hle.not_le, hover,
              BankAccount.record_transaction]
          · simp [statefulStep, BankAccount.withdraw, hle.not_le, hover]
          · simp [statefulStep, BankAccount.withdraw, hle.not_le, hover,
              BankAccount.record_transaction]
          · have hb : (statefulStep a (Op.withdraw amount)).1.balance =
                a.balance - amount := by
              simp [statefulStep, BankAccount.withdraw, hle.not_le, hover,
                BankAccount.record_transaction]
            rw [hb]
            exact not_lt.mp hover

/-- A successful stateful deposit appends exactly the "deposit" entry. -/
theorem deposit_ok_history (a : BankAccount) (amount : ℚ) (a1 : BankAccount)
    (r : ℚ) (h : a.deposit amount = .ok (a1, r)) :
    a1.transaction_history =
      a.transaction_history ++ [⟨"deposit", amount, a1.balance⟩] := by
  by_cases hle : amount ≤ 0
  · simp [BankAccount.deposit, hle] at h
  · simp [BankAccount.deposit, hle, BankAccount.record_transaction] at h
    obtain ⟨h1, -⟩ := h
    subst h1
    simp

/-- A successful stateful withdrawal appends exactly the "withdrawal"
entry. -/
theorem withdraw_ok_history (a : BankAccount) (amount : ℚ) (a1 : BankAccount)
    (r : ℚ) (h : a.withdraw amount = .ok (a1, r)) :
    a1.transaction_history =
      a.transaction_history ++ [⟨"withdrawal", amount, a1.balance⟩] := by
  by_cases hle : amount ≤ 0
  · simp [BankAccount.withdraw, hle] at h
  · by_cases hover : a.balance - amount < -a.overdraft_limit
    · simp [BankAccount.withdraw, hle, hover] at h
    · simp [BankAccount.withdraw, hle, hover,
        BankAccount.record_transaction] at h
      obtain ⟨h1, -⟩ := h
      subst h1
      simp

/-- C1: for `withdraw(amount)` with `amount > 0`: if
`balance - amount >= -overdraft_limit` it subtracts exactly `amount`
(appending the corresponding history entry) and returns the new balance; if
`balance - amount < -overdraft_limit` it fails with `OverdraftExceeded`,
and no mutation happens (the error result carries no updated state: in the
embedding the checks precede every assignment, as in the source). -/
theorem claim_C1_withdraw (a : BankAccount) (amount : ℚ) (hpos : 0 < amount) :
    (-a.overdraft_limit ≤ a.balance - amount →
      a.withdraw amount =
        .ok ({ a with
                balance := a.balance - amount,
                transaction_history := a.transaction_history ++
                  [⟨"withdrawal", amount, a.balance - amount⟩] },
             a.balance - amount)) ∧
    (a.balance - amount < -a.overdraft_limit →
      a.withdraw amount =
        .error (.overdraftExceeded (overdraftMessage a.overdraft_limit)) ∧
      statefulStep a (Op.withdraw amount) = (a, false)) := by
  constructor
  · intro h
    simp [BankAccount.withdraw, BankAccount.record_transaction,
      hpos.not_le, not_lt.mpr h]
  · intro h
    constructor
    · simp [BankAccount.withdraw, hpos.not_le, h]
    · simp [statefulStep, BankAccount.withdraw, hpos.not_le, h]

/-- Witness for C1 at balance 100, limit 200: withdrawing 250 lands exactly
in the overdraft and succeeds; withdrawing 350 fails. -/
theorem claim_C1_withdraw_witness :
    BankAccount.withdraw ⟨100, [], 200⟩ 250 =
      .ok (⟨100 - 250, [⟨"withdrawal", 250, 100 - 250⟩], 200⟩, 100 - 250) ∧
    BankAccount.withdraw ⟨100, [], 200⟩ 350 =
      .error (.overdraftExceeded (overdraftMessage 200)) ∧
    statefulStep ⟨100, [], 200⟩ (Op.withdraw 350) = (⟨100, [], 200⟩, false) :=
  ⟨(claim_C1_withdraw ⟨100, [], 200⟩ 250 (by norm_num)).1 (by norm_num),
   ((claim_C1_withdraw ⟨100, [], 200⟩ 350 (by norm_num)).2 (by norm_num)).1,
   ((claim_C1_withdraw ⟨100, [], 200⟩ 350 (by norm_num)).2 (by norm_num)).2⟩

/-- C2: for `deposit(amount)` with `amount > 0`: the balance increases by
exactly `amount`, exactly one "deposit" history entry is appended with that
amount and the new balance as `resulting_balance`, and the new balance is
returned. -/
theorem claim_C2_deposit (a : BankAccount) (amount : ℚ) (hpos : 0 < amount) :
    a.deposit amount =
      .ok ({ a with
              balance := a.balance + amount,
              transaction_history := a.transaction_history ++
                [⟨"deposit", amount, a.balance + amount⟩] },
           a.balance + amount) := by
  simp [BankAccount.deposit, BankAccount.record_transaction, hpos.not_le]

/-- Witness for C2: depositing 50 on balance 100. -/
theorem claim_C2_deposit_witness :
    BankAccount.deposit ⟨100, [], 200⟩ 50 =
      .ok (⟨100 + 50, [⟨"deposit", 50, 100 + 50⟩], 200⟩, 100 + 50) :=
  claim_C2_deposit ⟨100, [], 200⟩ 50 (by norm_num)

/-- C3: for every `amount <= 0`, stateful deposit, stateful withdraw, pure
deposit and pure withdraw all fail with `InvalidArgument`; in the stateful
case the shell step leaves balance and history unchanged (no partial
mutation). -/
theorem claim_C3_nonpositive (a : BankAccount) (b l amount : ℚ)
    (hle : amount ≤ 0) :
    a.deposit amount = .error (.invalidArgument "Deposit amount must be positive") ∧
    a.withdraw amount = .error (.invalidArgument "Withdrawal amount must be positive") ∧
    deposit b amount = .error (.invalidArgument "Deposit amount must be positive") ∧
    withdraw b amount l = .error (.invalidArgument "Withdrawal amount must be positive") ∧
    statefulStep a (Op.deposit amount) = (a, false) ∧
    statefulStep a (Op.withdraw amount) = (a, false) := by
  refine ⟨?_, ?_, ?_, ?_, ?_, ?_⟩ <;>
    simp [BankAccount.deposit, BankAccount.withdraw, deposit, withdraw,
      statefulStep, hle]

/-- Witness for C3 at amount -50. -/
theorem claim_C3_nonpositive_witness :
    BankAccount.deposit ⟨100, [], 200⟩ (-50) =
      .error (.invalidArgument "Deposit amount must be positive") ∧
    BankAccount.withdraw ⟨100, [], 200⟩ (-50) =
      .error (.invalidArgument "Withdrawal amount must be positive") ∧
    deposit 5 (-50) = .error (.invalidArgument "Deposit amount must be positive") ∧
    withdraw 5 (-50) 2 = .error (.invalidArgument "Withdrawal amount must be positive") ∧
    statefulStep ⟨100, [], 200⟩ (Op.deposit (-50)) = (⟨100, [], 200⟩, false) ∧
    statefulStep ⟨100, [], 200⟩ (Op.withdraw (-50)) = (⟨100, [], 200⟩, false) :=
  claim_C3_nonpositive ⟨100, [], 200⟩ 5 2 (-50) (by norm_num)

/-- C5: construction fails with `InvalidArgument` iff the initial balance is
negative; on success the stored limit is `max 0 overdraft_limit`, and the
history is one "initial deposit" entry when the initial balance is positive,
empty when it is zero. -/
theorem claim_C5_create (initial_balance overdraft_limit : ℚ) :
    (initial_balance < 0 →
      BankAccount.create initial_balance overdraft_limit =
        .error (.invalidArgument "Initial balance cannot be negative")) ∧
    (0 ≤ initial_balance →
      ∃ a, BankAccount.create initial_balance overdraft_limit = .ok a ∧
        a.balance = initial_balance ∧
        a.overdraft_limit = max 0 overdraft_limit ∧
        (0 < initial_balance →
          a.transaction_history =
            [⟨"initial deposit", initial_balance, initial_balance⟩]) ∧
        (initial_balance = 0 → a.transaction_history = [])) := by
  constructor
  · intro h
    simp [BankAccount.create, h]
  · intro h
    rcases lt_or_eq_of_le h with hpos | hzero
    · refine ⟨BankAccount.record_transaction
          ⟨initial_balance, [], max 0 overdraft_limit⟩
          "initial deposit" initial_balance, ?_, ?_, ?_, ?_, ?_⟩
      · simp [BankAccount.create, not_lt.mpr h, hpos]
      · simp [BankAccount.record_transaction]
      · simp [BankAccount.record_transaction]
      · intro _
        simp [BankAccount.record_transaction]
      · intro h0
        exact absurd h0 (ne_of_gt hpos)
    · refine ⟨⟨initial_balance, [], max 0 overdraft_limit⟩, ?_, rfl, rfl, ?_, fun _ => rfl⟩
      · simp [BankAccount.create, not_lt.mpr h, ← hzero]
      · intro h0
        rw [← hzero] at h0
        exact absurd h0 (lt_irrefl 0)

/-- Witness for C5: creation at (-3, 7) fails, at (5, -2) succeeds with the
limit clamped to 0. -/
theorem claim_C5_create_witness :
    (BankAccount.create (-3) 7 =
      .error (.invalidArgument "Initial balance cannot be negative")) ∧
    (∃ a, BankAccount.create 5 (-2) = .ok a ∧
      a.balance = 5 ∧
      a.overdraft_limit = max 0 (-2) ∧
      ((0:ℚ) < 5 → a.transaction_history = [⟨"initial deposit", 5, 5⟩]) ∧
      ((5:ℚ) = 0 → a.transaction_history = [])) :=
  ⟨(claim_C5_create (-3) 7).1 (by norm_num),
   (claim_C5_create 5 (-2)).2 (by norm_num)⟩

/-- C9: the pure functions, for every balance and for the overdraft limit
exactly as passed (no clamping): `deposit` rejects non-positive amounts and
otherwise returns `balance + amount`; `withdraw` rejects non-positive
amounts, fails with `OverdraftExceeded` when `balance - amount` falls below
`-overdraft_limit`, and otherwise returns `balance - amount`; `get_balance`
is the identity. -/
theorem claim_C9_pure (balance amount overdraft_limit : ℚ) :
    (amount ≤ 0 →
      deposit balance amount =
        .error (.invalidArgument "Deposit amount must be positive")) ∧
    (0 < amount → deposit balance amount = .ok (balance + amount)) ∧
    (amount ≤ 0 →
      withdraw balance amount overdraft_limit =
        .error (.invalidArgument "Withdrawal amount must be positive")) ∧
    (0 < amount → balance - amount < -overdraft_limit →
      withdraw balance amount overdraft_limit =
        .error (.overdraftExceeded (overdraftMessage overdraft_limit))) ∧
    (0 < amount → -overdraft_limit ≤ balance - amount →
      withdraw balance amount overdraft_limit = .ok (balance - amount)) ∧
    get_balance balance = balance := by
  refine ⟨fun h => ?_, fun h => ?_, fun h => ?_, fun h h2 => ?_, fun h h2 => ?_, rfl⟩
  · simp [deposit, h]
  · simp [deposit, h.not_le]
  · simp [withdraw, h]
  · simp [withdraw, h.not_le, h2]
  · simp [withdraw, h.not_le, not_lt.mpr h2]

/-- Witness for C9 covering every branch on concrete inputs. -/
theorem claim_C9_pure_witness :
    deposit 100 (-1) = .error (.invalidArgument "Deposit amount must be positive") ∧
    deposit 100 50 = .ok (100 + 50) ∧
    withdraw 100 (-1) 200 = .error (.invalidArgument "Withdrawal amount must be positive") ∧
    withdraw 100 350 200 = .error (.overdraftExceeded (overdraftMessage 200)) ∧
    withdraw 100 250 200 = .ok (100 - 250) ∧
    get_balance 7 = 7 :=
  ⟨(claim_C9_pure 100 (-1) 200).1 (by norm_num),
   (claim_C9_pure 100 50 200).2.1 (by norm_num),
   (claim_C9_pure 100 (-1) 200).2.2.1 (by norm_num),
   (claim_C9_pure 100 350 200).2.2.2.1 (by norm_num) (by norm_num),
   (claim_C9_pure 100 250 200).2.2.2.2.1 (by norm_num) (by norm_num),
   (claim_C9_pure 7 1 0).2.2.2.2.2⟩

/-- C10 (implicit): in both the stateful method and the pure function the
positivity check precedes the overdraft check: for `amount <= 0` the result
is always `InvalidArgument`, never `OverdraftExceeded`, whatever the balance
and limit. -/
theorem claim_C10_check_order (a : BankAccount) (b l amount : ℚ)
    (hle : amount ≤ 0) :
    a.withdraw amount =
      .error (.invalidArgument "Withdrawal amount must be positive") ∧
    withdraw b amount l =
      .error (.invalidArgument "Withdrawal amount must be positive") := by
  constructor <;> simp [BankAccount.withdraw, withdraw, hle]

/-- Witness for C10 at an input where the overdraft condition also holds
(balance -10, limit 0, amount -1: `-10 - (-1) < -0`), yet the error is
`InvalidArgument`. -/
theorem claim_C10_check_order_witness :
    ((-10:ℚ) - (-1) < -(0:ℚ)) ∧
    BankAccount.withdraw ⟨-10, [], 0⟩ (-1) =
      .error (.invalidArgument "Withdrawal amount must be positive") ∧
    withdraw (-10) (-1) 0 =
      .error (.invalidArgument "Withdrawal amount must be positive") :=
  ⟨by norm_num,
   (claim_C10_check_order ⟨-10, [], 0⟩ (-10) 0 (-1) (by norm_num)).1,
   (claim_C10_check_order ⟨-10, [], 0⟩ (-10) 0 (-1) (by norm_num)).2⟩

/-- C4: every account reachable from a successful construction by any
sequence of deposit/withdraw calls (successful or failed) satisfies
`balance >= -overdraft_limit` and `overdraft_limit >= 0`, and no operation
ever changes its overdraft limit. -/
theorem claim_C4_invariant (ib : ℚ) (n : ℕ) (a : BankAccount)
    (h : Reachable ib n a) :
    -a.overdraft_limit ≤ a.balance ∧ 0 ≤ a.overdraft_limit ∧
    (∀ op, (statefulStep a op).1.overdraft_limit = a.overdraft_limit) := by
  induction h with
  | create od a hc =>
      obtain ⟨hib, hbal, hlim, -⟩ := create_ok_props hc
      refine ⟨?_, ?_, fun op => (statefulStep_spec a op).1⟩
      · rw [hbal, hlim]
        have := le_max_left (0 : ℚ) od
        linarith
      · rw [hlim]
        exact le_max_left 0 od
  | step n a op hr ih =>
      obtain ⟨hinv, hnn, -⟩ := ih
      obtain ⟨hlim, hfail, hsucc⟩ := statefulStep_spec a op
      refine ⟨?_, ?_, fun op2 => (statefulStep_spec _ op2).1⟩
      · cases hb : (statefulStep a op).2 with
        | false =>
            rw [hfail hb]
            exact hinv
        | true =>
            rw [hlim]
            exact (hsucc hb).2 hinv
      · rw [hlim]
        exact hnn

/-- Witness for C4 on the account created by `create 0 0`, stepping once. -/
theorem claim_C4_invariant_witness :
    -(BankAccount.mk 0 [] 0).overdraft_limit ≤ (BankAccount.mk 0 [] 0).balance ∧
    0 ≤ (BankAccount.mk 0 [] 0).overdraft_limit ∧
    (statefulStep ⟨0, [], 0⟩ (Op.deposit 5)).1.overdraft_limit =
      (BankAccount.mk 0 [] 0).overdraft_limit :=
  ⟨(claim_C4_invariant 0 0 ⟨0, [], 0⟩
      (Reachable.create 0 0 ⟨0, [], 0⟩ (by norm_num [BankAccount.create]))).1,
   (claim_C4_invariant 0 0 ⟨0, [], 0⟩
      (Reachable.create 0 0 ⟨0, [], 0⟩ (by norm_num [BankAccount.create]))).2.1,
   (claim_C4_invariant 0 0 ⟨0, [], 0⟩
      (Reachable.create 0 0 ⟨0, [], 0⟩ (by norm_num [BankAccount.create]))).2.2
     (Op.deposit 5)⟩

/-- C7: for every reachable account the history is append-only (operations
only ever append; a successful deposit/withdrawal appends exactly its one
entry, a failed call appends nothing), its length is 1 (if the initial
balance was positive, else 0) plus the number of successful calls,
`transaction_count()` equals the history length, and the last entry's
`resulting_balance` is the balance right after that entry's operation,
i.e. the current balance. -/
theorem claim_C7_history (ib : ℚ) (n : ℕ) (a : BankAccount)
    (h : Reachable ib n a) :
    a.transaction_count = a.transaction_history.length ∧
    a.transaction_history.length = (if 0 < ib then 1 else 0) + n ∧
    (∀ op, ∃ t, (statefulStep a op).1.transaction_history =
        a.transaction_history ++ t) ∧
    (∀ amount a1 r, a.deposit amount = .ok (a1, r) →
      a1.transaction_history =
        a.transaction_history ++ [⟨"deposit", amount, a1.balance⟩]) ∧
    (∀ amount a1 r, a.withdraw amount = .ok (a1, r) →
      a1.transaction_history =
        a.transaction_history ++ [⟨"withdrawal", amount, a1.balance⟩]) ∧
    (∀ e, a.transaction_history.getLast? = some e →
      e.resulting_balance = a.balance) := by
  have hgen : ∀ (x : BankAccount) op, ∃ t,
      (statefulStep x op).1.transaction_history =
        x.transaction_history ++ t := by
    intro x op
    obtain ⟨-, hfail, hsucc⟩ := statefulStep_spec x op
    cases hb : (statefulStep x op).2 with
    | false =>
        refine ⟨[], ?_⟩
        rw [hfail hb]
        simp
    | true =>
        obtain ⟨tt, amt, hh⟩ := (hsucc hb).1
        exact ⟨_, hh⟩
  induction h with
  | create od a hc =>
      obtain ⟨hib, hbal, hlim, hhist⟩ := create_ok_props hc
      refine ⟨rfl, ?_, hgen a,
        fun amount a1 r hd => deposit_ok_history a amount a1 r hd,
        fun amount a1 r hw => withdraw_ok_history a amount a1 r hw, ?_⟩
      · rw [hhist]
        by_cases h2 : 0 < ib <;> simp [h2]
      · intro e he
        rw [hhist] at he
        by_cases h2 : 0 < ib
        · simp [h2] at he
          rw [← he, hbal]
        · simp [h2] at he
  | step n a op hr ih =>
      obtain ⟨-, hlen, -, -, -, hlast⟩ := ih
      obtain ⟨hlim, hfail, hsucc⟩ := statefulStep_spec a op
      refine ⟨rfl, ?_, hgen _,
        fun amount a1 r hd => deposit_ok_history _ amount a1 r hd,
        fun amount a1 r hw => withdraw_ok_history _ amount a1 r hw, ?_⟩
      · cases hb : (statefulStep a op).2 with
        | false =>
            rw [hfail hb]
            simp [hlen]
        | true =>
            obtain ⟨tt, amt, hh⟩ := (hsucc hb).1
            rw [hh, List.length_append, hlen]
            simp [Nat.add_assoc]
      · cases hb : (statefulStep a op).2 with
        | false =>
            rw [hfail hb]
            exact hlast
        | true =>
            obtain ⟨tt, amt, hh⟩ := (hsucc hb).1
            intro e he
            rw [hh, List.getLast?_concat] at he
            simp at he
            rw [← he]

/-- Witness for C7 on the account created by `create 5 0`. -/
theorem claim_C7_history_witness :
    (BankAccount.mk 5 [⟨"initial deposit", 5, 5⟩] 0).transaction_count =
      (BankAccount.mk 5 [⟨"initial deposit", 5, 5⟩] 0).transaction_history.length ∧
    (BankAccount.mk 5 [⟨"initial deposit", 5, 5⟩] 0).transaction_history.length =
      (if (0:ℚ) < 5 then 1 else 0) + 0 ∧
    (⟨"initial deposit", 5, 5⟩ : Transaction).resulting_balance =
      (BankAccount.mk 5 [⟨"initial deposit", 5, 5⟩] 0).balance :=
  ⟨(claim_C7_history 5 0 ⟨5, [⟨"initial deposit", 5, 5⟩], 0⟩
      (Reachable.create 5 0 _
        (by norm_num [BankAccount.create, BankAccount.record_transaction]))).1,
   (claim_C7_history 5 0 ⟨5, [⟨"initial deposit", 5, 5⟩], 0⟩
      (Reachable.create 5 0 _
        (by norm_num [BankAccount.create, BankAccount.record_transaction]))).2.1,
   (claim_C7_history 5 0 ⟨5, [⟨"initial deposit", 5, 5⟩], 0⟩
      (Reachable.create 5 0 _
        (by norm_num [BankAccount.create, BankAccount.record_transaction]))).2.2.2.2.2
     ⟨"initial deposit", 5, 5⟩ rfl⟩

/-- One stateless step agrees with one stateful step when the stateless
side is given the account's stored limit and balance. -/
theorem statelessStep_eq (a : BankAccount) (op : Op) :
    statelessStep a.overdraft_limit a.balance op =
      ((statefulStep a op).1.balance, (statefulStep a op).2) := by
  cases op with
  | deposit amount =>
      by_cases hle : amount ≤ 0
      · simp [statelessStep, statefulStep, deposit, BankAccount.deposit, hle]
      · simp [statelessStep, statefulStep, deposit, BankAccount.deposit, hle,
          BankAccount.record_transaction]
  | withdraw amount =>
      by_cases hle : amount ≤ 0
      · simp [statelessStep, statefulStep, withdraw, BankAccount.withdraw, hle]
      · by_cases hover : a.balance - amount < -a.overdraft_limit
        · simp [statelessStep, statefulStep, withdraw, BankAccount.withdraw,
            hle, hover]
        · simp [statelessStep, statefulStep, withdraw, BankAccount.withdraw,
            hle, hover, BankAccount.record_transaction]

/-- Run-level equivalence against the account's stored limit and balance. -/
theorem statelessRun_eq (ops : List Op) (a : BankAccount) :
    statelessRun a.overdraft_limit a.balance ops =
      ((statefulRun a ops).1.balance, (statefulRun a ops).2) := by
  induction ops generalizing a with
  | nil => rfl
  | cons op ops ih =>
      have h2 := ih (statefulStep a op).1
      rw [(statefulStep_spec a op).1] at h2
      simp only [statelessRun, statefulRun, statelessStep_eq a op, h2]

/-- C6 (amended: the overdraft limit must be non-negative — the stateful
constructor clamps a negative limit to 0 while the pure `withdraw` applies
it as given, so they diverge on negative limits): starting from the same
balance and the same overdraft limit `l >= 0`, any sequence of stateless
deposit/withdraw calls yields the same final balance and the same
succeed/fail outcome at each step as the stateful sequence on an account
created with that balance and limit, history excluded. -/
theorem claim_C6_equivalence (b l : ℚ) (ops : List Op) (a : BankAccount)
    (hl : 0 ≤ l) (hc : BankAccount.create b l = .ok a) :
    statelessRun l b ops =
      ((statefulRun a ops).1.balance, (statefulRun a ops).2) := by
  obtain ⟨-, hbal, hlim, -⟩ := create_ok_props hc
  have hl2 : a.overdraft_limit = l := by
    rw [hlim]
    exact max_eq_right hl
  rw [← hl2, ← hbal]
  exact statelessRun_eq ops a

/-- Witness for C6 on balance 100, limit 200, a deposit followed by two
withdrawals of which the second overdraws. -/
theorem claim_C6_equivalence_witness :
    statelessRun 200 100 [Op.deposit 50, Op.withdraw 300, Op.withdraw 300] =
      ((statefulRun ⟨100, [⟨"initial deposit", 100, 100⟩], 200⟩
          [Op.deposit 50, Op.withdraw 300, Op.withdraw 300]).1.balance,
       (statefulRun ⟨100, [⟨"initial deposit", 100, 100⟩], 200⟩
          [Op.deposit 50, Op.withdraw 300, Op.withdraw 300]).2) :=
  claim_C6_equivalence 100 200 [Op.deposit 50, Op.withdraw 300, Op.withdraw 300]
    ⟨100, [⟨"initial deposit", 100, 100⟩], 200⟩ (by norm_num)
    (by norm_num [BankAccount.create, BankAccount.record_transaction])

/-- The account created by `create 3 (-5)`: the limit is clamped to 0. -/
def accC6 : BankAccount :=
  ⟨3, [⟨"initial deposit", 3, 3⟩], 0⟩

/-- C6 counterexample: with balance 3 and overdraft limit -5, the stateful
account (limit clamped to 0) lets `withdraw 1` succeed and ends at balance
2, while the stateless sequence with the same limit -5 rejects it and ends
at balance 3: the final balances and the per-step outcomes differ. -/
theorem claim_C6_counterexample :
    BankAccount.create 3 (-5) = .ok accC6 ∧
    statefulRun accC6 [Op.withdraw 1] =
      (⟨2, [⟨"initial deposit", 3, 3⟩, ⟨"withdrawal", 1, 2⟩], 0⟩, [true]) ∧
    statelessRun (-5) 3 [Op.withdraw 1] = (3, [false]) ∧
    (statelessRun (-5) 3 [Op.withdraw 1]).1 ≠
      (statefulRun accC6 [Op.withdraw 1]).1.balance := by
  refine ⟨?_, ?_, ?_, ?_⟩ <;>
    norm_num [BankAccount.create, accC6, statefulRun, statefulStep,
      statelessRun, statelessStep, BankAccount.withdraw, withdraw,
      BankAccount.record_transaction]

/-- Reading below the old length is unaffected by an allocation. -/
theorem Heap.read_append (h : Heap) (x : List Transaction) (r : ℕ)
    (hr : r < h.length) : Heap.read (h ++ [x]) r = h.read r := by
  simp [Heap.read, List.getElem?_append_left hr]

/-- Reading the freshly allocated slot yields its contents. -/
theorem Heap.read_concat (h : Heap) (x : List Transaction) :
    Heap.read (h ++ [x]) h.length = x := by
  simp [Heap.read, List.getElem?_concat_length]

/-- Mutating one list object leaves every other object unchanged. -/
theorem Heap.read_write_ne (h : Heap) (q r : ℕ) (l : List Transaction)
    (hqr : q ≠ r) : Heap.read (h.write q l) r = h.read r := by
  simp [Heap.read, Heap.write, List.getElem?_set_ne hqr]

/-- C8: `get_transaction_history()` returns a defensive copy: the account
object is untouched, the returned list is a distinct object with the same
contents as the internal history, the internal history is unchanged, any
caller mutation of the returned object leaves the internal history (and the
account) unchanged, a repeated call returns identical contents, and
`get_balance()` is unchanged by the call. -/
theorem claim_C8_defensive_copy (h : Heap) (a : AccountObj)
    (hr : a.history_ref < h.length) :
    (a.get_transaction_history h).2.1 = a ∧
    (a.get_transaction_history h).2.2.1 ≠ a.history_ref ∧
    (a.get_transaction_history h).2.2.2 = h.read a.history_ref ∧
    Heap.read (a.get_transaction_history h).1 a.history_ref =
      h.read a.history_ref ∧
    (∀ l, Heap.read
        (Heap.write (a.get_transaction_history h).1
          (a.get_transaction_history h).2.2.1 l) a.history_ref =
      h.read a.history_ref) ∧
    (a.get_transaction_history ((a.get_transaction_history h).1)).2.2.2 =
      (a.get_transaction_history h).2.2.2 ∧
    ((a.get_transaction_history h).2.1).get_balance = a.get_balance := by
  have hne : h.length ≠ a.history_ref := ne_of_gt hr
  refine ⟨rfl, hne, ?_, ?_, ?_, ?_, rfl⟩
  · exact Heap.read_concat h (h.read a.history_ref)
  · exact Heap.read_append h (h.read a.history_ref) a.history_ref hr
  · intro l
    show Heap.read
        (Heap.write (h ++ [h.read a.history_ref]) h.length l)
        a.history_ref = h.read a.history_ref
    rw [Heap.read_write_ne _ _ _ _ hne]
    exact Heap.read_append h (h.read a.history_ref) a.history_ref hr
  · show Heap.read
        ((h ++ [h.read a.history_ref]) ++
          [Heap.read (h ++ [h.read a.history_ref]) a.history_ref])
        (h ++ [h.read a.history_ref]).length =
      Heap.read (h ++ [h.read a.history_ref]) h.length
    rw [Heap.read_concat, Heap.read_concat,
      Heap.read_append h (h.read a.history_ref) a.history_ref hr]

/-- Witness for C8 on a one-object heap. -/
theorem claim_C8_defensive_copy_witness :
    ((AccountObj.mk 1 0 0).get_transaction_history
        [[⟨"initial deposit", 1, 1⟩]]).2.1 = AccountObj.mk 1 0 0 ∧
    ((AccountObj.mk 1 0 0).get_transaction_history
        [[⟨"initial deposit", 1, 1⟩]]).2.2.1 ≠ (AccountObj.mk 1 0 0).history_ref ∧
    ((AccountObj.mk 1 0 0).get_transaction_history
        [[⟨"initial deposit", 1, 1⟩]]).2.2.2 =
      Heap.read [[⟨"initial deposit", 1, 1⟩]] (AccountObj.mk 1 0 0).history_ref ∧
    Heap.read ((AccountObj.mk 1 0 0).get_transaction_history
        [[⟨"initial deposit", 1, 1⟩]]).1 (AccountObj.mk 1 0 0).history_ref =
      Heap.read [[⟨"initial deposit", 1, 1⟩]] (AccountObj.mk 1 0 0).history_ref ∧
    Heap.read
        (Heap.write ((AccountObj.mk 1 0 0).get_transaction_history
            [[⟨"initial deposit", 1, 1⟩]]).1
          ((AccountObj.mk 1 0 0).get_transaction_history
            [[⟨"initial deposit", 1, 1⟩]]).2.2.1 [])
        (AccountObj.mk 1 0 0).history_ref =
      Heap.read [[⟨"initial deposit", 1, 1⟩]] (AccountObj.mk 1 0 0).history_ref :=
  ⟨(claim_C8_defensive_copy [[⟨"initial deposit", 1, 1⟩]] ⟨1, 0, 0⟩ (by decide)).1,
   (claim_C8_defensive_copy [[⟨"initial deposit", 1, 1⟩]] ⟨1, 0, 0⟩ (by decide)).2.1,
   (claim_C8_defensive_copy [[⟨"initial deposit", 1, 1⟩]] ⟨1, 0, 0⟩ (by decide)).2.2.1,
   (claim_C8_defensive_copy [[⟨"initial deposit", 1, 1⟩]] ⟨1, 0, 0⟩ (by decide)).2.2.2.1,
   (claim_C8_defensive_copy [[⟨"initial deposit", 1, 1⟩]] ⟨1, 0, 0⟩ (by decide)).2.2.2.2.1 []⟩

end BankSim
